import Mathlib

/-!
Verification of the video-library web client: a shallow embedding of its
API gateway client (`lib/api.ts`, class `ApiClient`), its session manager
(`components/auth-provider.tsx`, `AuthProvider`), and the view-level
handlers that consume them (`VideoLibrary.handleDelete`,
`VideoUpload.handleUpload`, `GlobalSearch.handleSearch`, and the status
presentation helpers).

Conventions of the embedding:
- `localStorage.getItem("firebase_token")` is an `Option String` parameter
  (`none` = no entry).
- A `fetch` call is embedded by recording the `Request` the code would
  issue and consuming an `HttpResponse` parameter standing for the
  server's answer; each method returns the list of requests it issued
  together with an `Except` value (`.error` = the method threw).
- JSON objects handled generically (object spread, dynamic keys) are
  association lists `JObj` with JavaScript lookup/assignment semantics.
- `new Date().toISOString().split("T")[0]` and `encodeURIComponent` are
  opaque parameters (`today : String`, `enc : String → String`).
-/

/-- A JSON value as manipulated by the client (strings, numbers, and the
JavaScript `undefined` produced by reading an absent property). -/
inductive JValue where
  | str (s : String)
  | num (n : Int)
  | undef
deriving DecidableEq, Repr

/-- A JavaScript object: an association list of properties in insertion
order (JavaScript objects have no duplicate keys). -/
abbrev JObj := List (String × JValue)

/-- Property read `o[k]`: first matching key, `undefined` when absent. -/
def jsGet : JObj → String → JValue
  | [], _ => .undef
  | (k', v') :: rest, k => if k' = k then v' else jsGet rest k

/-- Property write (as done by an object-spread literal): replace the value
of an existing key in place, otherwise append the key at the end. -/
def jsSet : JObj → String → JValue → JObj
  | [], k, v => [(k, v)]
  | (k', v') :: rest, k, v =>
    if k' = k then (k, v) :: rest else (k', v') :: jsSet rest k v

/-- Errors thrown by `ApiClient` (the code throws `Error` with a message
string; the `http` constructor additionally records the HTTP status the
code interpolates into that message). -/
inductive ApiError where
  | unauthenticated (message : String)
  | http (status : Nat) (message : String)
deriving DecidableEq, Repr

/-- The `message` property of the thrown error. -/
def ApiError.message : ApiError → String
  | .unauthenticated m => m
  | .http _ m => m

/-- Body of an outgoing request: empty (GET/DELETE), the JSON search
payload with fields `query` and `limit`, or multipart form data (a file
field is represented by the file's name). -/
inductive RequestBody where
  | empty
  | searchJson (query : String) (limit : Nat)
  | form (fields : List (String × String))
deriving DecidableEq, Repr

/-- An HTTP request as assembled by `ApiClient` before `fetch`. -/
structure Request where
  url : String
  method : String
  headers : List (String × String)
  body : RequestBody
deriving DecidableEq, Repr

/-- A server response: HTTP status, the text body read by `response.text()`
on failure, and the parsed JSON read by `response.json()` on success. -/
structure HttpResponse (α : Type) where
  status : Nat
  bodyText : String
  json : α

/-- The `response.ok` flag of the Fetch API: status in 200..299. -/
def HttpResponse.ok {α : Type} (r : HttpResponse α) : Bool :=
  decide (200 ≤ r.status) && decide (r.status ≤ 299)

/-- An uploaded file as far as the client inspects it (its name). -/
structure FileRec where
  name : String
deriving DecidableEq, Repr

/-- JSON body of a successful `/api/videos/upload` response. -/
structure UploadResponse where
  video_id : String
deriving DecidableEq, Repr

/-- Base URL (`NEXT_PUBLIC_API_URL`, defaulting to the local endpoint). -/
def API_BASE_URL : String := "http://localhost:8000"

namespace ApiClient

/-- `ApiClient.getAuthHeaders`: throws when no token is stored (the
JavaScript falsy test also rejects an empty-string entry), otherwise
bearer header plus JSON content type. -/
def getAuthHeaders (storage : Option String) :
    Except ApiError (List (String × String)) :=
  match storage with
  | none => .error (.unauthenticated "No authentication token found")
  | some token =>
    if token = "" then .error (.unauthenticated "No authentication token found")
    else
      .ok [("Authorization", "Bearer " ++ token),
           ("Content-Type", "application/json")]

/-- `ApiClient.getAuthHeadersForFormData`: same check, but no Content-Type
header (the transport must generate the multipart boundary). -/
def getAuthHeadersForFormData (storage : Option String) :
    Except ApiError (List (String × String)) :=
  match storage with
  | none => .error (.unauthenticated "No authentication token found")
  | some token =>
    if token = "" then .error (.unauthenticated "No authentication token found")
    else .ok [("Authorization", "Bearer " ++ token)]

/-- `ApiClient.uploadVideo`: POST multipart with fields `file` and `title`;
non-2xx throws with status and body text in the message. -/
def uploadVideo (storage : Option String) (file : FileRec) (title : String)
    (resp : HttpResponse UploadResponse) :
    List Request × Except ApiError UploadResponse :=
  match getAuthHeadersForFormData storage with
  | .error e => ([], .error e)
  | .ok headers =>
    let req : Request :=
      { url := API_BASE_URL ++ "/api/videos/upload", method := "POST",
        headers := headers,
        body := .form [("file", file.name), ("title", title)] }
    if resp.ok then ([req], .ok resp.json)
    else ([req], .error (.http resp.status
      ("Upload failed: " ++ toString resp.status ++ " - " ++ resp.bodyText)))

/-- The per-video field mapping of `ApiClient.getUserVideos` and
`ApiClient.getVideo`: object spread retaining every server field, then
camel-case aliases assigned from the snake-case fields (plus `thumbnail`
reassigned to itself). -/
def mapVideo (video : JObj) : JObj :=
  jsSet (jsSet (jsSet (jsSet video
    "indexingStatus" (jsGet video "indexing_status"))
    "createdAt" (jsGet video "created_at"))
    "minioPath" (jsGet video "minio_path"))
    "thumbnail" (jsGet video "thumbnail")

/-- `ApiClient.getUserVideos`: GET `/api/videos`, maps each returned video
object with `mapVideo`, preserving array order. -/
def getUserVideos (storage : Option String)
    (resp : HttpResponse (List JObj)) :
    List Request × Except ApiError (List JObj) :=
  match getAuthHeaders storage with
  | .error e => ([], .error e)
  | .ok headers =>
    let req : Request :=
      { url := API_BASE_URL ++ "/api/videos", method := "GET",
        headers := headers, body := .empty }
    if resp.ok then ([req], .ok (resp.json.map mapVideo))
    else ([req], .error (.http resp.status
      ("Failed to fetch videos: " ++ toString resp.status ++ " - "
        ++ resp.bodyText)))

/-- `ApiClient.getVideo`: GET `/api/videos/:id`, maps the single object. -/
def getVideo (storage : Option String) (videoId : String)
    (resp : HttpResponse JObj) : List Request × Except ApiError JObj :=
  match getAuthHeaders storage with
  | .error e => ([], .error e)
  | .ok headers =>
    let req : Request :=
      { url := API_BASE_URL ++ "/api/videos/" ++ videoId, method := "GET",
        headers := headers, body := .empty }
    if resp.ok then ([req], .ok (mapVideo resp.json))
    else ([req], .error (.http resp.status
      ("Failed to fetch video: " ++ toString resp.status ++ " - "
        ++ resp.bodyText)))

/-- `ApiClient.globalSearch`: POST `/api/search/global` with query and
limit; returns the parsed JSON unchanged. -/
def globalSearch {α : Type} (storage : Option String) (query : String)
    (limit : Nat) (resp : HttpResponse α) :
    List Request × Except ApiError α :=
  match getAuthHeaders storage with
  | .error e => ([], .error e)
  | .ok headers =>
    let req : Request :=
      { url := API_BASE_URL ++ "/api/search/global", method := "POST",
        headers := headers, body := .searchJson query limit }
    if resp.ok then ([req], .ok resp.json)
    else ([req], .error (.http resp.status
      ("Search failed: " ++ toString resp.status ++ " - " ++ resp.bodyText)))

/-- `ApiClient.searchInVideo`: POST `/api/search/video/:id`. -/
def searchInVideo {α : Type} (storage : Option String) (videoId : String)
    (query : String) (limit : Nat) (resp : HttpResponse α) :
    List Request × Except ApiError α :=
  match getAuthHeaders storage with
  | .error e => ([], .error e)
  | .ok headers =>
    let req : Request :=
      { url := API_BASE_URL ++ "/api/search/video/" ++ videoId,
        method := "POST", headers := headers,
        body := .searchJson query limit }
    if resp.ok then ([req], .ok resp.json)
    else ([req], .error (.http resp.status
      ("Search failed: " ++ toString resp.status ++ " - " ++ resp.bodyText)))

/-- `ApiClient.getVideoStreamUrl`: GET `/api/videos/:id/stream`. -/
def getVideoStreamUrl {α : Type} (storage : Option String)
    (videoId : String) (resp : HttpResponse α) :
    List Request × Except ApiError α :=
  match getAuthHeaders storage with
  | .error e => ([], .error e)
  | .ok headers =>
    let req : Request :=
      { url := API_BASE_URL ++ "/api/videos/" ++ videoId ++ "/stream",
        method := "GET", headers := headers, body := .empty }
    if resp.ok then ([req], .ok resp.json)
    else ([req], .error (.http resp.status
      ("Failed to get stream URL: " ++ toString resp.status ++ " - "
        ++ resp.bodyText)))

/-- `ApiClient.deleteVideo`: DELETE `/api/videos/:id`; returns `true` on
success, throws on non-2xx. -/
def deleteVideo (storage : Option String) (videoId : String)
    (resp : HttpResponse Unit) : List Request × Except ApiError Bool :=
  match getAuthHeaders storage with
  | .error e => ([], .error e)
  | .ok headers =>
    let req : Request :=
      { url := API_BASE_URL ++ "/api/videos/" ++ videoId,
        method := "DELETE", headers := headers, body := .empty }
    if resp.ok then ([req], .ok true)
    else ([req], .error (.http resp.status
      ("Failed to delete video: " ++ toString resp.status ++ " - "
        ++ resp.bodyText)))

/-- `ApiClient.testAuth`: GET `/health` with auth headers. -/
def testAuth {α : Type} (storage : Option String)
    (resp : HttpResponse α) : List Request × Except ApiError α :=
  match getAuthHeaders storage with
  | .error e => ([], .error e)
  | .ok headers =>
    let req : Request :=
      { url := API_BASE_URL ++ "/health", method := "GET",
        headers := headers, body := .empty }
    if resp.ok then ([req], .ok resp.json)
    else ([req], .error (.http resp.status
      ("Auth test failed: " ++ toString resp.status ++ " - "
        ++ resp.bodyText)))

end ApiClient

/-! Session manager (`AuthProvider` in `components/auth-provider.tsx`).
State: the `user` and `token` React state, the `firebase_token` entry in
`localStorage`, and the `loading` flag. External outcomes (the result of
`user.getIdToken()` or of the provider's remote `signOut`) are event
parameters; `Except Unit α` stands for a promise resolving with `α` or
rejecting. -/

/-- The session state published by `AuthProvider` plus the persisted
credential entry. -/
structure SessionState where
  user : Option String
  token : Option String
  storage : Option String
  loading : Bool
deriving DecidableEq, Repr

/-- State on application start: unauthenticated, `loading = true`. -/
def initialState : SessionState :=
  { user := none, token := none, storage := none, loading := true }

/-- The `onAuthStateChanged` callback. `ev = some (uid, tokenRes)` is a
signed-in notification together with the outcome of `user.getIdToken()`;
`ev = none` is a signed-out notification. Every branch ends with
`setLoading(false)`. -/
def authCallback (s : SessionState)
    (ev : Option (String × Except Unit String)) : SessionState :=
  match ev with
  | some (uid, .ok idToken) =>
    { s with token := some idToken, user := some uid,
             storage := some idToken, loading := false }
  | some (_, .error _) =>
    { s with token := none, user := none, storage := none, loading := false }
  | none =>
    { s with token := none, user := none, storage := none, loading := false }

/-- One firing of the 50-minute refresh timer with the outcome of
`user.getIdToken(true)`. The timer only exists while `user` is set; on
failure the error is only logged and nothing is written. -/
def refreshTick (s : SessionState) (r : Except Unit String) : SessionState :=
  match s.user with
  | none => s
  | some _ =>
    match r with
    | .ok idToken => { s with token := some idToken, storage := some idToken }
    | .error _ => s

/-- `AuthProvider.logout`: `await signOut(auth)`. If the provider call
rejects, the rejection propagates and no state is touched (second
component `true` = threw). If it resolves, the provider delivers a
signed-out `onAuthStateChanged` notification, which clears the state. -/
def logoutStep (s : SessionState) (remote : Except Unit Unit) :
    SessionState × Bool :=
  match remote with
  | .error _ => (s, true)
  | .ok _ => (authCallback s none, false)

/-- An externally triggered session event with its external outcome. -/
inductive SessionEvent where
  | providerChange (ev : Option (String × Except Unit String))
  | refresh (r : Except Unit String)
  | signOutReq (remote : Except Unit Unit)

/-- Session transition on one event. -/
def sessionStep (s : SessionState) (e : SessionEvent) : SessionState :=
  match e with
  | .providerChange ev => authCallback s ev
  | .refresh r => refreshTick s r
  | .signOutReq remote => (logoutStep s remote).1

/-- The session state after a sequence of events from application start. -/
def runSession (evs : List SessionEvent) : SessionState :=
  evs.foldl sessionStep initialState

/-! Status presentation (`VideoLibrary` in `components/video-library.tsx`).
The three helpers are `switch` statements over the four-valued
`indexingStatus` union with no `default` branch; a fall-through would
yield `undefined`, modelled by `Option`. -/

/-- The `indexingStatus` union type of `VideoItem`. -/
inductive Status where
  | PENDING
  | INDEXING
  | COMPLETED
  | FAILED
deriving DecidableEq, Repr

/-- The icons returned by `getStatusIcon` (element, color, animation). -/
inductive StatusIcon where
  | checkCircleGreen
  | clockYellowPulse
  | clockGray
  | alertCircleRed
deriving DecidableEq, Repr

/-- The `Badge` variants returned by `getStatusVariant`. -/
inductive BadgeVariant where
  | default
  | secondary
  | outline
  | destructive
deriving DecidableEq, Repr

/-- `getStatusIcon`: switch over the four states. -/
def getStatusIcon : Status → Option StatusIcon
  | .COMPLETED => some .checkCircleGreen
  | .INDEXING => some .clockYellowPulse
  | .PENDING => some .clockGray
  | .FAILED => some .alertCircleRed

/-- `getStatusText`: switch over the four states. -/
def getStatusText : Status → Option String
  | .COMPLETED => some "Ready"
  | .INDEXING => some "Processing..."
  | .PENDING => some "Queued"
  | .FAILED => some "Failed"

/-- `getStatusVariant`: switch over the four states. -/
def getStatusVariant : Status → Option BadgeVariant
  | .COMPLETED => some .default
  | .INDEXING => some .secondary
  | .PENDING => some .outline
  | .FAILED => some .destructive

/-- A `VideoItem` as held in the library view's state. -/
structure VideoItemRec where
  id : String
  title : String
  thumbnail : String
  duration : String
  indexingStatus : Status
  createdAt : String
  minioPath : String
deriving DecidableEq, Repr

/-- `VideoLibrary.handleDelete`: calls `apiClient.deleteVideo`; on success
filters the deleted id out of `videos`, on failure sets `deleteError` to
the error's message (with a fallback for an empty message) and leaves
`videos` untouched. Returns the new `videos` list and the `deleteError`
value. -/
def handleDelete (storage : Option String) (videos : List VideoItemRec)
    (videoId : String) (resp : HttpResponse Unit) :
    List VideoItemRec × Option String :=
  match (ApiClient.deleteVideo storage videoId resp).2 with
  | .ok _ => (videos.filter (fun v => v.id ≠ videoId), none)
  | .error e =>
    (videos,
      some (if e.message = "" then "Failed to delete video." else e.message))

/-- The video entry `VideoUpload.handleUpload` derives from a successful
upload response (`title`, placeholder thumbnail from the encoded title,
zero duration, `PENDING`, today's date, storage path from the returned
`video_id`). It carries no `id` field; the library adds one. -/
structure NewVideo where
  title : String
  thumbnail : String
  duration : String
  indexingStatus : Status
  createdAt : String
  minioPath : String
deriving DecidableEq, Repr

/-- The `newVideo` object literal in `VideoUpload.handleUpload`. -/
def newVideoFromUpload (enc : String → String) (today : String)
    (title : String) (videoId : String) : NewVideo :=
  { title := title,
    thumbnail := "/placeholder.svg?height=200&width=300&query="
      ++ enc title ++ " video thumbnail",
    duration := "0:00",
    indexingStatus := .PENDING,
    createdAt := today,
    minioPath := "/videos/" ++ videoId }

/-- `VideoUpload.handleUpload`: uploads via `apiClient.uploadVideo`; on
success passes the derived entry to `onUpload`, on failure only logs. -/
def handleUpload (storage : Option String) (file : FileRec) (title : String)
    (resp : HttpResponse UploadResponse) (enc : String → String)
    (today : String) : Option NewVideo :=
  match (ApiClient.uploadVideo storage file title resp).2 with
  | .ok r => some (newVideoFromUpload enc today title r.video_id)
  | .error _ => none

/-- A hit returned by the global-search endpoint, as the component reads
it: `video_id` (numeric database id), `title`, `similarity`, `timestamp`
in seconds. The similarity score is only copied, never computed with, so
it is embedded as a rational. -/
structure SearchHit where
  video_id : Nat
  title : String
  similarity : ℚ
  timestamp : Nat
deriving DecidableEq, Repr

/-- A `SearchResult` display entry built by `GlobalSearch.handleSearch`. -/
structure SearchResultRec where
  id : String
  title : String
  thumbnail : String
  duration : String
  indexingStatus : Status
  createdAt : String
  minioPath : String
  relevanceScore : ℚ
  matchedTimestamp : Nat
deriving DecidableEq, Repr

/-- The per-hit conversion in `GlobalSearch.handleSearch`. -/
def convertHit (enc : String → String) (today : String) (h : SearchHit) :
    SearchResultRec :=
  { id := toString h.video_id,
    title := h.title,
    thumbnail := "/placeholder.svg?height=200&width=300&query="
      ++ enc h.title,
    duration := "0:00",
    indexingStatus := .COMPLETED,
    createdAt := today,
    minioPath := "",
    relevanceScore := h.similarity,
    matchedTimestamp := h.timestamp }

/-- The mapping of the hits array to display entries in
`GlobalSearch.handleSearch`. -/
def globalSearchResults (enc : String → String) (today : String)
    (hits : List SearchHit) : List SearchResultRec :=
  hits.map (convertHit enc today)

/-! Helper lemmas. -/

/-- Reading a key just written returns the written value. -/
theorem jsGet_jsSet_same (o : JObj) (k : String) (v : JValue) :
    jsGet (jsSet o k v) k = v := by
  induction o with
  | nil => simp [jsSet, jsGet]
  | cons p rest ih =>
    obtain ⟨k', v'⟩ := p
    by_cases h : k' = k
    · simp [jsSet, jsGet, h]
    · simp [jsSet, jsGet, h, ih]

/-- Writing one key leaves every other key's value unchanged. -/
theorem jsGet_jsSet_ne (o : JObj) (k k' : String) (v : JValue)
    (h : k' ≠ k) : jsGet (jsSet o k v) k' = jsGet o k' := by
  induction o with
  | nil => simp [jsSet, jsGet, h, Ne.symm h]
  | cons p rest ih =>
    obtain ⟨k0, v0⟩ := p
    by_cases h0 : k0 = k
    · subst h0
      simp [jsSet, jsGet, Ne.symm h]
    · by_cases h1 : k0 = k'
      · simp [jsSet, jsGet, h, h0, h1]
      · simp [jsSet, jsGet, h0, h1, ih]

/-- The delete-failure message built by the gateway is never empty, so the
JavaScript fallback in `err.message || "Failed to delete video."` never
triggers for gateway errors. -/
theorem deleteMsg_ne_empty (s t : String) :
    "Failed to delete video: " ++ s ++ " - " ++ t ≠ "" := by
  intro h
  have hlen := congrArg String.length h
  have h0 : ("Failed to delete video: " : String).length = 24 := rfl
  have h1 : (" - " : String).length = 3 := rfl
  have h2 : ("" : String).length = 0 := rfl
  simp only [String.length_append, h0, h1, h2] at hlen
  omega

/-- One session event preserves the identity/credential coupling. -/
theorem sessionStep_coupling (s : SessionState) (e : SessionEvent)
    (h : s.user = none ↔ s.token = none) :
    ((sessionStep s e).user = none ↔ (sessionStep s e).token = none) := by
  cases e with
  | providerChange ev =>
    rcases ev with _ | ⟨uid, r⟩
    · simp [sessionStep, authCallback]
    · rcases r with e' | t <;> simp [sessionStep, authCallback]
  | refresh r =>
    rcases s with ⟨u, t, st, l⟩
    cases u with
    | none => simpa [sessionStep, refreshTick] using h
    | some uid =>
      rcases r with e' | tk <;> simp_all [sessionStep, refreshTick]
  | signOutReq remote =>
    rcases remote with e' | u
    · simpa [sessionStep, logoutStep] using h
    · simp [sessionStep, logoutStep, authCallback]

/-- The coupling is inductive along any event sequence. -/
theorem sessionInv_foldl (evs : List SessionEvent) (s : SessionState)
    (h : s.user = none ↔ s.token = none) :
    ((evs.foldl sessionStep s).user = none ↔
      (evs.foldl sessionStep s).token = none) := by
  induction evs generalizing s with
  | nil => exact h
  | cons e rest ih => exact ih (sessionStep s e) (sessionStep_coupling s e h)

/-- Claim C1: for every API gateway method (uploadVideo, getUserVideos,
getVideo, globalSearch, searchInVideo, getVideoStreamUrl, deleteVideo,
testAuth), when no bearer credential is persisted in local storage the
call fails with the Unauthenticated error ("No authentication token
found") and the issued-request list is empty, i.e. it fails before any
network request is made. -/
theorem no_token_fails_fast_without_network
    (α β γ δ : Type) (file : FileRec) (title vid vid2 vid3 q q2 : String)
    (lim lim2 : Nat)
    (r1 : HttpResponse UploadResponse) (r2 : HttpResponse (List JObj))
    (r3 : HttpResponse JObj) (r4 : HttpResponse α) (r5 : HttpResponse β)
    (r6 : HttpResponse γ) (r7 : HttpResponse Unit) (r8 : HttpResponse δ) :
    ApiClient.uploadVideo none file title r1 =
      ([], .error (.unauthenticated "No authentication token found")) ∧
    ApiClient.getUserVideos none r2 =
      ([], .error (.unauthenticated "No authentication token found")) ∧
    ApiClient.getVideo none vid r3 =
      ([], .error (.unauthenticated "No authentication token found")) ∧
    ApiClient.globalSearch none q lim r4 =
      ([], .error (.unauthenticated "No authentication token found")) ∧
    ApiClient.searchInVideo none vid2 q2 lim2 r5 =
      ([], .error (.unauthenticated "No authentication token found")) ∧
    ApiClient.getVideoStreamUrl none vid3 r6 =
      ([], .error (.unauthenticated "No authentication token found")) ∧
    ApiClient.deleteVideo none vid r7 =
      ([], .error (.unauthenticated "No authentication token found")) ∧
    ApiClient.testAuth none r8 =
      ([], .error (.unauthenticated "No authentication token found")) :=
  ⟨rfl, rfl, rfl, rfl, rfl, rfl, rfl, rfl⟩

/-- Claim C2: for every API gateway method, a non-2xx response makes the
call throw an HTTP failure whose status equals the response's status and
whose message ends with (hence contains) the response body text; no
non-2xx response is silently dropped. -/
theorem non2xx_throws_status_and_body
    (α β γ δ : Type) (tok : String) (file : FileRec)
    (title vid vid2 vid3 vid4 q q2 : String) (lim lim2 : Nat)
    (r1 : HttpResponse UploadResponse) (r2 : HttpResponse (List JObj))
    (r3 : HttpResponse JObj) (r4 : HttpResponse α) (r5 : HttpResponse β)
    (r6 : HttpResponse γ) (r7 : HttpResponse Unit) (r8 : HttpResponse δ)
    (htok : tok ≠ "")
    (h1 : r1.ok = false) (h2 : r2.ok = false) (h3 : r3.ok = false)
    (h4 : r4.ok = false) (h5 : r5.ok = false) (h6 : r6.ok = false)
    (h7 : r7.ok = false) (h8 : r8.ok = false) :
    ((ApiClient.uploadVideo (some tok) file title r1).2 = .error (.http
        r1.status
        ("Upload failed: " ++ toString r1.status ++ " - " ++ r1.bodyText)) ∧
      ∃ p, "Upload failed: " ++ toString r1.status ++ " - " ++ r1.bodyText
        = p ++ r1.bodyText) ∧
    ((ApiClient.getUserVideos (some tok) r2).2 = .error (.http r2.status
        ("Failed to fetch videos: " ++ toString r2.status ++ " - "
          ++ r2.bodyText)) ∧
      ∃ p, "Failed to fetch videos: " ++ toString r2.status ++ " - "
        ++ r2.bodyText = p ++ r2.bodyText) ∧
    ((ApiClient.getVideo (some tok) vid r3).2 = .error (.http r3.status
        ("Failed to fetch video: " ++ toString r3.status ++ " - "
          ++ r3.bodyText)) ∧
      ∃ p, "Failed to fetch video: " ++ toString r3.status ++ " - "
        ++ r3.bodyText = p ++ r3.bodyText) ∧
    ((ApiClient.globalSearch (some tok) q lim r4).2 = .error (.http
        r4.status
        ("Search failed: " ++ toString r4.status ++ " - " ++ r4.bodyText)) ∧
      ∃ p, "Search failed: " ++ toString r4.status ++ " - " ++ r4.bodyText
        = p ++ r4.bodyText) ∧
    ((ApiClient.searchInVideo (some tok) vid2 q2 lim2 r5).2 = .error (.http
        r5.status
        ("Search failed: " ++ toString r5.status ++ " - " ++ r5.bodyText)) ∧
      ∃ p, "Search failed: " ++ toString r5.status ++ " - " ++ r5.bodyText
        = p ++ r5.bodyText) ∧
    ((ApiClient.getVideoStreamUrl (some tok) vid3 r6).2 = .error (.http
        r6.status
        ("Failed to get stream URL: " ++ toString r6.status ++ " - "
          ++ r6.bodyText)) ∧
      ∃ p, "Failed to get stream URL: " ++ toString r6.status ++ " - "
        ++ r6.bodyText = p ++ r6.bodyText) ∧
    ((ApiClient.deleteVideo (some tok) vid4 r7).2 = .error (.http r7.status
        ("Failed to delete video: " ++ toString r7.status ++ " - "
          ++ r7.bodyText)) ∧
      ∃ p, "Failed to delete video: " ++ toString r7.status ++ " - "
        ++ r7.bodyText = p ++ r7.bodyText) ∧
    ((ApiClient.testAuth (some tok) r8).2 = .error (.http r8.status
        ("Auth test failed: " ++ toString r8.status ++ " - "
          ++ r8.bodyText)) ∧
      ∃ p, "Auth test failed: " ++ toString r8.status ++ " - "
        ++ r8.bodyText = p ++ r8.bodyText) := by
  refine ⟨⟨?_, ⟨_, rfl⟩⟩, ⟨?_, ⟨_, rfl⟩⟩, ⟨?_, ⟨_, rfl⟩⟩, ⟨?_, ⟨_, rfl⟩⟩,
    ⟨?_, ⟨_, rfl⟩⟩, ⟨?_, ⟨_, rfl⟩⟩, ⟨?_, ⟨_, rfl⟩⟩, ⟨?_, ⟨_, rfl⟩⟩⟩
  · simp [ApiClient.uploadVideo, ApiClient.getAuthHeadersForFormData,
      htok, h1]
  · simp [ApiClient.getUserVideos, ApiClient.getAuthHeaders, htok, h2]
  · simp [ApiClient.getVideo, ApiClient.getAuthHeaders, htok, h3]
  · simp [ApiClient.globalSearch, ApiClient.getAuthHeaders, htok, h4]
  · simp [ApiClient.searchInVideo, ApiClient.getAuthHeaders, htok, h5]
  · simp [ApiClient.getVideoStreamUrl, ApiClient.getAuthHeaders, htok, h6]
  · simp [ApiClient.deleteVideo, ApiClient.getAuthHeaders, htok, h7]
  · simp [ApiClient.testAuth, ApiClient.getAuthHeaders, htok, h8]

/-- Claim C2 witness: a concrete 500 response with body "boom" on every
method, with a stored token "t". -/
theorem non2xx_throws_status_and_body_witness :
    (("t" : String) ≠ "") ∧
    ((⟨500, "boom", ⟨"42"⟩⟩ : HttpResponse UploadResponse).ok = false) ∧
    (((⟨500, "boom", []⟩ : HttpResponse (List JObj)).ok = false)) ∧
    ((ApiClient.uploadVideo (some "t") ⟨"clip.mp4"⟩ "Test"
        ⟨500, "boom", ⟨"42"⟩⟩).2 = .error (.http 500
        ("Upload failed: " ++ toString 500 ++ " - " ++ "boom")) ∧
      ∃ p, "Upload failed: " ++ toString 500 ++ " - " ++ "boom"
        = p ++ "boom") ∧
    ((ApiClient.getUserVideos (some "t") ⟨500, "boom", []⟩).2 =
        .error (.http 500
        ("Failed to fetch videos: " ++ toString 500 ++ " - " ++ "boom")) ∧
      ∃ p, "Failed to fetch videos: " ++ toString 500 ++ " - " ++ "boom"
        = p ++ "boom") ∧
    ((ApiClient.getVideo (some "t") "7" ⟨500, "boom", []⟩).2 =
        .error (.http 500
        ("Failed to fetch video: " ++ toString 500 ++ " - " ++ "boom")) ∧
      ∃ p, "Failed to fetch video: " ++ toString 500 ++ " - " ++ "boom"
        = p ++ "boom") ∧
    ((ApiClient.globalSearch (α := Unit) (some "t") "dog" 5
        ⟨500, "boom", ()⟩).2 = .error (.http 500
        ("Search failed: " ++ toString 500 ++ " - " ++ "boom")) ∧
      ∃ p, "Search failed: " ++ toString 500 ++ " - " ++ "boom"
        = p ++ "boom") ∧
    ((ApiClient.searchInVideo (α := Unit) (some "t") "7" "dog" 10
        ⟨500, "boom", ()⟩).2 = .error (.http 500
        ("Search failed: " ++ toString 500 ++ " - " ++ "boom")) ∧
      ∃ p, "Search failed: " ++ toString 500 ++ " - " ++ "boom"
        = p ++ "boom") ∧
    ((ApiClient.getVideoStreamUrl (α := Unit) (some "t") "7"
        ⟨500, "boom", ()⟩).2 = .error (.http 500
        ("Failed to get stream URL: " ++ toString 500 ++ " - " ++ "boom")) ∧
      ∃ p, "Failed to get stream URL: " ++ toString 500 ++ " - " ++ "boom"
        = p ++ "boom") ∧
    ((ApiClient.deleteVideo (some "t") "7" ⟨500, "boom", ()⟩).2 =
        .error (.http 500
        ("Failed to delete video: " ++ toString 500 ++ " - " ++ "boom")) ∧
      ∃ p, "Failed to delete video: " ++ toString 500 ++ " - " ++ "boom"
        = p ++ "boom") ∧
    ((ApiClient.testAuth (α := Unit) (some "t") ⟨500, "boom", ()⟩).2 =
        .error (.http 500
        ("Auth test failed: " ++ toString 500 ++ " - " ++ "boom")) ∧
      ∃ p, "Auth test failed: " ++ toString 500 ++ " - " ++ "boom"
        = p ++ "boom") :=
  ⟨by decide, by decide, by decide,
    non2xx_throws_status_and_body Unit Unit Unit Unit "t" ⟨"clip.mp4"⟩
      "Test" "7" "7" "7" "7" "dog" "dog" 5 10
      ⟨500, "boom", ⟨"42"⟩⟩ ⟨500, "boom", []⟩ ⟨500, "boom", []⟩
      ⟨500, "boom", ()⟩ ⟨500, "boom", ()⟩ ⟨500, "boom", ()⟩
      ⟨500, "boom", ()⟩ ⟨500, "boom", ()⟩
      (by decide) (by decide) (by decide) (by decide) (by decide)
      (by decide) (by decide) (by decide) (by decide)⟩

/-- Claim C8: a failed run of the periodic token refresh leaves the whole
session state (user, token, persisted credential, loading flag)
unchanged; in particular no forced sign-out occurs. -/
theorem refresh_failure_leaves_session_unchanged (s : SessionState) :
    refreshTick s (.error ()) = s := by
  rcases s with ⟨u, t, st, l⟩
  cases u <;> rfl

/-- Claim C9: the status presentation helpers are pure functions defined
on every one of the four indexing states: `getStatusIcon`,
`getStatusText` and `getStatusVariant` each return a value (never the
JavaScript `undefined` of a switch fall-through) for PENDING, INDEXING,
COMPLETED and FAILED. -/
theorem status_presentation_total (s : Status) :
    (getStatusIcon s).isSome = true ∧ (getStatusText s).isSome = true ∧
    (getStatusVariant s).isSome = true := by
  cases s <;> exact ⟨rfl, rfl, rfl⟩

/-- Claim C4: in every session state reachable from application start, the
identity (`user`) and the credential (`token`) are both present or both
absent; and every provider state-change callback ends with either both
set together or both cleared, with `loading` transitioned to `false`. -/
theorem session_identity_credential_coupled (evs : List SessionEvent)
    (s : SessionState) (ev : Option (String × Except Unit String)) :
    ((runSession evs).user = none ↔ (runSession evs).token = none) ∧
    (((authCallback s ev).user.isSome = true ∧
        (authCallback s ev).token.isSome = true ∧
        (authCallback s ev).loading = false) ∨
      ((authCallback s ev).user = none ∧ (authCallback s ev).token = none ∧
        (authCallback s ev).loading = false)) := by
  constructor
  · exact sessionInv_foldl evs initialState (by simp [initialState])
  · rcases ev with _ | ⟨uid, r⟩
    · right; exact ⟨rfl, rfl, rfl⟩
    · rcases r with e' | t
      · right; exact ⟨rfl, rfl, rfl⟩
      · left; exact ⟨rfl, rfl, rfl⟩

/-- An active session: signed-in user "u", token "t", persisted
credential "t", loading finished. -/
def activeSession : SessionState :=
  { user := some "u", token := some "t", storage := some "t",
    loading := false }

/-- Claim C3 counterexample: when the remote sign-out call fails, `logout`
merely rethrows; with an active session the state and the persisted
credential are left exactly as they were, so nothing is cleared. -/
theorem logout_remote_failure_clears_nothing :
    (logoutStep activeSession (.error ())).1 = activeSession ∧
    (logoutStep activeSession (.error ())).1.storage ≠ none ∧
    (logoutStep activeSession (.error ())).1.token ≠ none ∧
    (logoutStep activeSession (.error ())).2 = true :=
  ⟨rfl, by decide, by decide, rfl⟩

/-- Claim C3 (amended): when the remote sign-out call succeeds, the
session state and persisted credential are cleared (via the provider's
signed-out callback); when the remote call fails, the rejection
propagates out of `logout` and the session state and persisted credential
are left unchanged. -/
theorem logout_clears_on_remote_success (s : SessionState) :
    ((logoutStep s (.ok ())).1.user = none ∧
      (logoutStep s (.ok ())).1.token = none ∧
      (logoutStep s (.ok ())).1.storage = none ∧
      (logoutStep s (.ok ())).1.loading = false ∧
      (logoutStep s (.ok ())).2 = false) ∧
    ((logoutStep s (.error ())).1 = s ∧
      (logoutStep s (.error ())).2 = true) :=
  ⟨⟨rfl, rfl, rfl, rfl, rfl⟩, rfl, rfl⟩

/-- Claim C6: when `deleteVideo` fails (any non-2xx response, e.g. a 404
for an already-deleted id), the failure surfaces as an error carrying the
response's HTTP status (interpolated in the surfaced message), and
`handleDelete` leaves the in-memory video list unchanged; the failure is
not silently ignored (`deleteError` is set). -/
theorem delete_failure_preserves_library (tok : String)
    (videos : List VideoItemRec) (videoId : String)
    (resp : HttpResponse Unit) (htok : tok ≠ "") (h : resp.ok = false) :
    (handleDelete (some tok) videos videoId resp).1 = videos ∧
    (ApiClient.deleteVideo (some tok) videoId resp).2 =
      .error (.http resp.status ("Failed to delete video: "
        ++ toString resp.status ++ " - " ++ resp.bodyText)) ∧
    (handleDelete (some tok) videos videoId resp).2 =
      some ("Failed to delete video: " ++ toString resp.status ++ " - "
        ++ resp.bodyText) := by
  have hd : (ApiClient.deleteVideo (some tok) videoId resp).2 =
      .error (.http resp.status ("Failed to delete video: "
        ++ toString resp.status ++ " - " ++ resp.bodyText)) := by
    simp [ApiClient.deleteVideo, ApiClient.getAuthHeaders, htok, h]
  refine ⟨?_, hd, ?_⟩
  · simp [handleDelete, hd]
  · simp [handleDelete, hd, ApiError.message,
      deleteMsg_ne_empty (toString resp.status) resp.bodyText]

/-- A concrete library entry for the delete scenario. -/
def sampleVideo : VideoItemRec :=
  { id := "1", title := "a", thumbnail := "th", duration := "0:00",
    indexingStatus := .COMPLETED, createdAt := "2024-01-01",
    minioPath := "/v/1" }

/-- A concrete 404 response ("Video not found") for the delete scenario. -/
def notFoundResp : HttpResponse Unit :=
  { status := 404, bodyText := "Video not found", json := () }

/-- Claim C6 witness: deleting id "7" against a 404 server with one video
in the library. -/
theorem delete_failure_preserves_library_witness :
    (("t" : String) ≠ "") ∧ (notFoundResp.ok = false) ∧
    ((handleDelete (some "t") [sampleVideo] "7" notFoundResp).1 =
        [sampleVideo] ∧
      (ApiClient.deleteVideo (some "t") "7" notFoundResp).2 =
        .error (.http notFoundResp.status ("Failed to delete video: "
          ++ toString notFoundResp.status ++ " - "
          ++ notFoundResp.bodyText)) ∧
      (handleDelete (some "t") [sampleVideo] "7" notFoundResp).2 =
        some ("Failed to delete video: " ++ toString notFoundResp.status
          ++ " - " ++ notFoundResp.bodyText)) :=
  ⟨by decide, by decide,
    delete_failure_preserves_library "t" [sampleVideo] "7" notFoundResp
      (by decide) (by decide)⟩

/-- Claim C7: `uploadVideo` issues a POST to the upload endpoint whose
body is multipart form data with exactly the fields `file` and `title`,
whose headers carry the bearer credential and no Content-Type override;
and on a response with video_id "42" the derived library entry has
indexingStatus PENDING and storage path "/videos/42". -/
theorem upload_multipart_and_derived_entry (tok title today : String)
    (enc : String → String) (file : FileRec)
    (resp : HttpResponse UploadResponse) (htok : tok ≠ "")
    (hok : resp.ok = true) (hid : resp.json = ⟨"42"⟩) :
    (ApiClient.uploadVideo (some tok) file title resp).1 =
      [⟨API_BASE_URL ++ "/api/videos/upload", "POST",
        [("Authorization", "Bearer " ++ tok)],
        .form [("file", file.name), ("title", title)]⟩] ∧
    (∀ r ∈ (ApiClient.uploadVideo (some tok) file title resp).1,
      ∀ hd ∈ r.headers, hd.1 ≠ "Content-Type") ∧
    handleUpload (some tok) file title resp enc today =
      some (newVideoFromUpload enc today title "42") ∧
    (newVideoFromUpload enc today title "42").indexingStatus = .PENDING ∧
    (newVideoFromUpload enc today title "42").minioPath = "/videos/42" := by
  have h1 : ApiClient.uploadVideo (some tok) file title resp =
      ([⟨API_BASE_URL ++ "/api/videos/upload", "POST",
        [("Authorization", "Bearer " ++ tok)],
        .form [("file", file.name), ("title", title)]⟩], .ok resp.json) := by
    simp [ApiClient.uploadVideo, ApiClient.getAuthHeadersForFormData,
      htok, hok]
  refine ⟨by rw [h1], ?_, ?_, rfl, rfl⟩
  · rw [h1]
    intro r hr hd hhd
    simp at hr
    subst hr
    simp at hhd
    subst hhd
    exact (by decide : ("Authorization" : String) ≠ "Content-Type")
  · simp [handleUpload, h1, hid]

/-- A concrete successful upload response with video_id "42". -/
def uploadOkResp : HttpResponse UploadResponse :=
  { status := 200, bodyText := "", json := { video_id := "42" } }

/-- Claim C7 witness: uploading "clip.mp4" with title "Test" and token
"t", identity encoding, date "2024-01-01". -/
theorem upload_multipart_and_derived_entry_witness :
    (("t" : String) ≠ "") ∧ (uploadOkResp.ok = true) ∧
    (uploadOkResp.json = ⟨"42"⟩) ∧
    ((ApiClient.uploadVideo (some "t") ⟨"clip.mp4"⟩ "Test"
        uploadOkResp).1 =
      [⟨API_BASE_URL ++ "/api/videos/upload", "POST",
        [("Authorization", "Bearer " ++ "t")],
        .form [("file", FileRec.name ⟨"clip.mp4"⟩), ("title", "Test")]⟩] ∧
    (∀ r ∈ (ApiClient.uploadVideo (some "t") ⟨"clip.mp4"⟩ "Test"
        uploadOkResp).1,
      ∀ hd ∈ r.headers, hd.1 ≠ "Content-Type") ∧
    handleUpload (some "t") ⟨"clip.mp4"⟩ "Test" uploadOkResp
        (fun s => s) "2024-01-01" =
      some (newVideoFromUpload (fun s => s) "2024-01-01" "Test" "42") ∧
    (newVideoFromUpload (fun s => s) "2024-01-01" "Test"
        "42").indexingStatus = .PENDING ∧
    (newVideoFromUpload (fun s => s) "2024-01-01" "Test"
        "42").minioPath = "/videos/42") :=
  ⟨by decide, by decide, by decide,
    upload_multipart_and_derived_entry "t" "Test" "2024-01-01"
      (fun s => s) ⟨"clip.mp4"⟩ uploadOkResp
      (by decide) (by decide) (by decide)⟩

/-- Claim C10: the conversion of global-search hits to display entries
preserves the length and order of the array (the i-th entry comes from
the i-th hit), and each entry has indexingStatus COMPLETED, duration
"0:00", minioPath "", id the hit's video_id rendered as a string,
relevanceScore the hit's similarity, and matchedTimestamp the hit's
timestamp. -/
theorem search_results_preserve_hits (enc : String → String)
    (today : String) (hits : List SearchHit) (i : Nat)
    (hi : i < hits.length)
    (hi2 : i < (globalSearchResults enc today hits).length) :
    (globalSearchResults enc today hits).length = hits.length ∧
    ((globalSearchResults enc today hits).get ⟨i, hi2⟩).indexingStatus
      = .COMPLETED ∧
    ((globalSearchResults enc today hits).get ⟨i, hi2⟩).duration = "0:00" ∧
    ((globalSearchResults enc today hits).get ⟨i, hi2⟩).minioPath = "" ∧
    ((globalSearchResults enc today hits).get ⟨i, hi2⟩).id
      = toString (hits.get ⟨i, hi⟩).video_id ∧
    ((globalSearchResults enc today hits).get ⟨i, hi2⟩).relevanceScore
      = (hits.get ⟨i, hi⟩).similarity ∧
    ((globalSearchResults enc today hits).get ⟨i, hi2⟩).matchedTimestamp
      = (hits.get ⟨i, hi⟩).timestamp := by
  have hget : (globalSearchResults enc today hits).get ⟨i, hi2⟩ =
      convertHit enc today (hits.get ⟨i, hi⟩) := by
    simp [globalSearchResults]
  refine ⟨by simp [globalSearchResults], ?_, ?_, ?_, ?_, ?_, ?_⟩ <;>
    rw [hget] <;> rfl

/-- A concrete search hit: video 3, title "cat", similarity 1, second 17. -/
def sampleHit : SearchHit :=
  { video_id := 3, title := "cat", similarity := 1, timestamp := 17 }

/-- Claim C10 witness: converting the one-hit array `[sampleHit]`. -/
theorem search_results_preserve_hits_witness :
    (0 < ([sampleHit] : List SearchHit).length) ∧
    (0 < (globalSearchResults (fun s => s) "2024-01-01"
      [sampleHit]).length) ∧
    ((globalSearchResults (fun s => s) "2024-01-01"
        [sampleHit]).length = ([sampleHit] : List SearchHit).length ∧
      ((globalSearchResults (fun s => s) "2024-01-01" [sampleHit]).get
        ⟨0, by decide⟩).indexingStatus = .COMPLETED ∧
      ((globalSearchResults (fun s => s) "2024-01-01" [sampleHit]).get
        ⟨0, by decide⟩).duration = "0:00" ∧
      ((globalSearchResults (fun s => s) "2024-01-01" [sampleHit]).get
        ⟨0, by decide⟩).minioPath = "" ∧
      ((globalSearchResults (fun s => s) "2024-01-01" [sampleHit]).get
        ⟨0, by decide⟩).id
        = toString (([sampleHit] : List SearchHit).get
          ⟨0, by decide⟩).video_id ∧
      ((globalSearchResults (fun s => s) "2024-01-01" [sampleHit]).get
        ⟨0, by decide⟩).relevanceScore
        = (([sampleHit] : List SearchHit).get ⟨0, by decide⟩).similarity ∧
      ((globalSearchResults (fun s => s) "2024-01-01" [sampleHit]).get
        ⟨0, by decide⟩).matchedTimestamp
        = (([sampleHit] : List SearchHit).get ⟨0, by decide⟩).timestamp) :=
  ⟨by decide, by decide,
    search_results_preserve_hits (fun s => s) "2024-01-01" [sampleHit] 0
      (by decide) (by decide)⟩

/-- The server array of the listVideos scenario: one video with id 1,
indexing_status COMPLETED, created_at 2024-01-01, minio_path /v/1. -/
def scenarioServerVideos : List JObj :=
  [[("id", .num 1), ("indexing_status", .str "COMPLETED"),
    ("created_at", .str "2024-01-01"), ("minio_path", .str "/v/1")]]

/-- The output the claim says the scenario returns: only the four
camel-case fields. -/
def scenarioClaimedVideos : List JObj :=
  [[("id", .num 1), ("indexingStatus", .str "COMPLETED"),
    ("createdAt", .str "2024-01-01"), ("minioPath", .str "/v/1")]]

/-- The output the code actually returns on the scenario: the object
spread retains the snake-case fields and adds a thumbnail key. -/
def scenarioActualVideos : List JObj :=
  [[("id", .num 1), ("indexing_status", .str "COMPLETED"),
    ("created_at", .str "2024-01-01"), ("minio_path", .str "/v/1"),
    ("indexingStatus", .str "COMPLETED"), ("createdAt", .str "2024-01-01"),
    ("minioPath", .str "/v/1"), ("thumbnail", .undef)]]

/-- Claim C5 counterexample: on the scenario input, getUserVideos does
not return exactly the four camel-case fields; the returned object still
carries the snake-case fields (and a thumbnail key), so the actual output
differs from the claimed one. -/
theorem list_videos_scenario_not_exact :
    (ApiClient.getUserVideos (some "t")
        ⟨200, "", scenarioServerVideos⟩).2 = .ok scenarioActualVideos ∧
    scenarioActualVideos ≠ scenarioClaimedVideos ∧
    jsGet (scenarioActualVideos.headI) "indexing_status"
      = .str "COMPLETED" ∧
    jsGet (scenarioClaimedVideos.headI) "indexing_status" = .undef :=
  ⟨rfl, by decide, by decide, by decide⟩

/-- Claim C5 (amended): getUserVideos maps each server object by adding
camel-case aliases indexingStatus, createdAt, minioPath carrying the
values of the snake-case fields (and reassigning thumbnail to itself),
while retaining every original server field unchanged, preserving server
order, and performing no other transformation. -/
theorem list_videos_adds_camel_aliases (tok : String)
    (resp : HttpResponse (List JObj)) (video : JObj) (k : String)
    (htok : tok ≠ "") (hok : resp.ok = true)
    (hk1 : k ≠ "indexingStatus") (hk2 : k ≠ "createdAt")
    (hk3 : k ≠ "minioPath") (hk4 : k ≠ "thumbnail") :
    (ApiClient.getUserVideos (some tok) resp).2 =
      .ok (resp.json.map ApiClient.mapVideo) ∧
    (resp.json.map ApiClient.mapVideo).length = resp.json.length ∧
    jsGet (ApiClient.mapVideo video) "indexingStatus"
      = jsGet video "indexing_status" ∧
    jsGet (ApiClient.mapVideo video) "createdAt"
      = jsGet video "created_at" ∧
    jsGet (ApiClient.mapVideo video) "minioPath"
      = jsGet video "minio_path" ∧
    jsGet (ApiClient.mapVideo video) "thumbnail"
      = jsGet video "thumbnail" ∧
    jsGet (ApiClient.mapVideo video) k = jsGet video k := by
  refine ⟨?_, by simp, ?_, ?_, ?_, ?_, ?_⟩
  · simp [ApiClient.getUserVideos, ApiClient.getAuthHeaders, htok, hok]
  · rw [ApiClient.mapVideo, jsGet_jsSet_ne _ _ _ _ (by decide),
      jsGet_jsSet_ne _ _ _ _ (by decide),
      jsGet_jsSet_ne _ _ _ _ (by decide), jsGet_jsSet_same]
  · rw [ApiClient.mapVideo, jsGet_jsSet_ne _ _ _ _ (by decide),
      jsGet_jsSet_ne _ _ _ _ (by decide), jsGet_jsSet_same]
  · rw [ApiClient.mapVideo, jsGet_jsSet_ne _ _ _ _ (by decide),
      jsGet_jsSet_same]
  · rw [ApiClient.mapVideo, jsGet_jsSet_same]
  · rw [ApiClient.mapVideo, jsGet_jsSet_ne _ _ _ _ hk4,
      jsGet_jsSet_ne _ _ _ _ hk3, jsGet_jsSet_ne _ _ _ _ hk2,
      jsGet_jsSet_ne _ _ _ _ hk1]

/-- Claim C5 witness: instantiating the amended mapping theorem on the
scenario input, with the retained key "id". -/
theorem list_videos_adds_camel_aliases_witness :
    (("t" : String) ≠ "") ∧
    ((⟨200, "", scenarioServerVideos⟩ :
      HttpResponse (List JObj)).ok = true) ∧
    (("id" : String) ≠ "indexingStatus") ∧
    (("id" : String) ≠ "createdAt") ∧ (("id" : String) ≠ "minioPath") ∧
    (("id" : String) ≠ "thumbnail") ∧
    ((ApiClient.getUserVideos (some "t")
        ⟨200, "", scenarioServerVideos⟩).2 =
      .ok (((⟨200, "", scenarioServerVideos⟩ :
        HttpResponse (List JObj)).json).map ApiClient.mapVideo) ∧
    (((⟨200, "", scenarioServerVideos⟩ :
        HttpResponse (List JObj)).json).map ApiClient.mapVideo).length =
      ((⟨200, "", scenarioServerVideos⟩ :
        HttpResponse (List JObj)).json).length ∧
    jsGet (ApiClient.mapVideo (scenarioServerVideos.headI))
        "indexingStatus"
      = jsGet (scenarioServerVideos.headI) "indexing_status" ∧
    jsGet (ApiClient.mapVideo (scenarioServerVideos.headI)) "createdAt"
      = jsGet (scenarioServerVideos.headI) "created_at" ∧
    jsGet (ApiClient.mapVideo (scenarioServerVideos.headI)) "minioPath"
      = jsGet (scenarioServerVideos.headI) "minio_path" ∧
    jsGet (ApiClient.mapVideo (scenarioServerVideos.headI)) "thumbnail"
      = jsGet (scenarioServerVideos.headI) "thumbnail" ∧
    jsGet (ApiClient.mapVideo (scenarioServerVideos.headI)) "id"
      = jsGet (scenarioServerVideos.headI) "id") :=
  ⟨by decide, by decide, by decide, by decide, by decide, by decide,
    list_videos_adds_camel_aliases "t" ⟨200, "", scenarioServerVideos⟩
      (scenarioServerVideos.headI) "id" (by decide) (by decide)
      (by decide) (by decide) (by decide) (by decide)⟩
